import Mathlib

/-!
Verification of the CatalogIQ → Shopify importer (`src/main.py`, `src/mian.py`).

The source is two near-duplicate Google Cloud Function entry points.  We embed
the pure core shallowly:

* `map_catalogiq_to_shopify` (the field mapper of `main.py`) and
  `map_catalogiq_to_shopify_mian` (the variant in `mian.py`);
* `check_operation_status` (the polling loop in `main.py`), with explicit fuel
  standing for the number of loop iterations the `while True:` loop may take;
* `sync_products` (the page orchestrator), with the external HTTP world
  abstracted to a fetch response and a per-record outcome oracle;
* `publish_offset` / `process_product` offset round-trip, over character lists.

Python dictionaries that the code indexes with `[...]` (raising `KeyError`
when the key is absent) are embedded as structures with `Option` fields for
exactly the keys the mapper reads that way; `dict.get` reads are `Option`
reads with a default.  Python string truthiness (`if attribute_value:`) is
embedded as an emptiness test on `String`.
-/

/-- One entry of a source variant's `attributes` list: `{name, value}`. -/
structure VariantAttr where
  name : String
  value : String
deriving DecidableEq, Repr

/-- A CatalogIQ source variant: `default_code` (SKU) and its attribute list. -/
structure SourceVariant where
  default_code : String
  attributes : List VariantAttr
deriving DecidableEq, Repr

/-- One entry of the source product's product-level `attributes` list:
`{category, name, description, value}`. -/
structure ProductAttr where
  category : String
  name : String
  description : String
  value : String
deriving DecidableEq, Repr

/-- A CatalogIQ source product.  The fields the mapper reads with `[...]`
(`name`, `attributes`, `variants`) are `Option`s: `none` is an absent key and
the read raises `KeyError`.  `description_sale` is read with `.get`, so it is
an `Option` read with a default instead of a failure. -/
structure SourceProduct where
  name : Option String
  description_sale : Option String
  main_image : Option String
  images : List String
  attributes : Option (List ProductAttr)
  variants : Option (List SourceVariant)
deriving DecidableEq, Repr

/-- A `{"optionName": ..., "name": ...}` entry of a mapped variant's
`optionValues`. -/
structure OptionValue where
  optionName : String
  name : String
deriving DecidableEq, Repr

/-- A mapped Shopify variant: `{"sku": ..., "optionValues": [...]}`. -/
structure ShopifyVariant where
  sku : String
  optionValues : List OptionValue
deriving DecidableEq, Repr

/-- A `{"name": ...}` entry of a product option's `values` list. -/
structure OptionValueName where
  name : String
deriving DecidableEq, Repr

/-- A `{"name": ..., "values": [...]}` entry of `productOptions`. -/
structure ProductOption where
  name : String
  values : List OptionValueName
deriving DecidableEq, Repr

/-- A Shopify metafield as built by the mapper from one product attribute. -/
structure Metafield where
  nspace : String
  description : String
  key : String
  value : String
  type : String
deriving DecidableEq, Repr

/-- The mapped Shopify product payload returned by the field mapper. -/
structure ShopifyProduct where
  title : String
  vendor : String
  descriptionHtml : String
  productOptions : List ProductOption
  variants : List ShopifyVariant
  metafields : List Metafield
deriving DecidableEq, Repr

/-- A `KeyError` raised by the mapper on an absent required key. -/
inductive MapError where
  | missingField (field : String)
deriving DecidableEq, Repr

/-- The message carried by a `MapError`, as seen by the per-record handler. -/
def MapError.message : MapError → String
  | .missingField f => "KeyError: " ++ f

/-- The `option_names` value: the Python `set` of all attribute names across all
variants (`main.py` lines 41–43).  A Python `set` iterates in an unspecified
order; we embed it as the duplicate-free list of names, so only membership and
duplicate-freeness are meaningful. -/
def collectOptionNames (variants : List SourceVariant) : List String :=
  ((variants.map (fun v => v.attributes.map (fun a => a.name))).flatten).dedup

/-- The lookup `next((attr['value'] for attr in variant['attributes'] if
attr['name'] == option_name), None)` (`main.py` line 52): the value of the first attribute with
the given name, or `none`. -/
def findAttrValue (attrs : List VariantAttr) (optionName : String) : Option String :=
  (attrs.find? (fun a => a.name = optionName)).map (fun a => a.value)

/-- Mapping of one source variant (`main.py` lines 48–59).  For each collected
option name, the first matching attribute value is looked up; the entry is
appended only when that value is truthy (`if attribute_value:`), which for
strings means non-empty — `None` (not found) and `""` are both dropped. -/
def mapVariant (optionNames : List String) (v : SourceVariant) : ShopifyVariant :=
  { sku := v.default_code
    optionValues := optionNames.filterMap (fun optionName =>
      match findAttrValue v.attributes optionName with
      | some val => if val = "" then none else some { optionName := optionName, name := val }
      | none => none) }

/-- All `{"name": attribute['value']}` records collected for one option name
across a variant list (`main.py` lines 64–68), before deduplication. -/
def collectAxisValues (variants : List SourceVariant) (optionName : String) :
    List OptionValueName :=
  ((variants.map (fun v => v.attributes.filter (fun a => a.name = optionName))).flatten).map
    (fun a => { name := a.value })

/-- The `productOptions` construction (`main.py` lines 62–76).  The Python
`[dict(t) for t in {tuple(d.items()) for d in values}]` trick removes
duplicates by exact equality in an unspecified order; we embed it as
`List.dedup`. -/
def mkProductOptions (optionNames : List String) (variants : List SourceVariant) :
    List ProductOption :=
  optionNames.map (fun optionName =>
    { name := optionName, values := (collectAxisValues variants optionName).dedup })

/-- The metafields list comprehension (`main.py` lines 84–90): a projection of
`ciq_product['attributes']` guarded by the (element-independent) truthiness of
the whole list. -/
def mkMetafields (attrs : List ProductAttr) : List Metafield :=
  (attrs.filter (fun _ => !attrs.isEmpty)).map (fun a =>
    { nspace := a.category
      description := a.description
      key := a.name
      value := a.value
      type := "string" })

/-- The `descriptionHtml` of `main.py` line 81:
`'' if not ciq_product.get('description_sale') else ciq_product.get('description_sale', '')`.
A falsy (`none` or empty) description maps to `""`. -/
def descriptionHtmlMain (d : Option String) : String :=
  match d with
  | none => ""
  | some s => if s = "" then "" else s

/-- The field mapper of `main.py` (`map_catalogiq_to_shopify`, lines 35–91).
The three `[...]` reads fail in the order Python evaluates them: `variants`
(line 41), then `name` (line 79), then `attributes` (line 90). -/
def map_catalogiq_to_shopify (p : SourceProduct) : Except MapError ShopifyProduct :=
  match p.variants with
  | none => .error (.missingField "variants")
  | some vs =>
    match p.name with
    | none => .error (.missingField "name")
    | some title =>
      match p.attributes with
      | none => .error (.missingField "attributes")
      | some attrs =>
        .ok { title := title
              vendor := "Vendor Name"
              descriptionHtml := descriptionHtmlMain p.description_sale
              productOptions := mkProductOptions (collectOptionNames vs) vs
              variants := vs.map (mapVariant (collectOptionNames vs))
              metafields := mkMetafields attrs }

/-- The field mapper of `mian.py` (`map_catalogiq_to_shopify`, lines 40–96).
It differs from `main.py` in two places: the variant-mapping loop runs over
`ciq_product['variants'][:99]` (line 53) while both the option-name collection
(line 46) and the per-axis value aggregation (line 70) still run over the FULL
variant list, and `descriptionHtml` is `ciq_product.get('description_sale', '')`
(line 86). -/
def map_catalogiq_to_shopify_mian (p : SourceProduct) : Except MapError ShopifyProduct :=
  match p.variants with
  | none => .error (.missingField "variants")
  | some vs =>
    match p.name with
    | none => .error (.missingField "name")
    | some title =>
      match p.attributes with
      | none => .error (.missingField "attributes")
      | some attrs =>
        .ok { title := title
              vendor := "Vendor Name"
              descriptionHtml := p.description_sale.getD ""
              productOptions := mkProductOptions (collectOptionNames vs) vs
              variants := (vs.take 99).map (mapVariant (collectOptionNames vs))
              metafields := mkMetafields attrs }

/-- One `{code, field, message}` entry of `userErrors` in an operation-status
response. -/
structure UserError where
  code : String
  field : String
  message : String
deriving DecidableEq, Repr

/-- The `product {id title}` object of an operation-status response, or
`null` when creation failed. -/
structure ProductRef where
  id : String
  title : String
deriving DecidableEq, Repr

/-- One parsed operation-status response
(`status_data['data']['productOperation']`): `{status, product, userErrors}`. -/
structure PollResponse where
  status : String
  product : Option ProductRef
  userErrors : List UserError
deriving DecidableEq, Repr

/-- The triple `(status, product_id, user_errors)` that
`check_operation_status` returns from a completing response
(`main.py` lines 128–130): `product_id` is `None` when `product` is `null`. -/
def pollResult (r : PollResponse) : String × Option String × List UserError :=
  (r.status, r.product.map (fun pr => pr.id), r.userErrors)

/-- The polling loop of `check_operation_status` (`main.py` lines 119–131).
The `while True:` loop issues one status query per iteration; `responses i` is
the response to the `i`-th query (counted from `i0`).  `fuel` bounds how many
iterations we unroll: `none` means the loop did not return within `fuel`
iterations.  The loop returns exactly on a response whose `status` is
`"COMPLETE"`; no other status and no iteration count stops it. -/
def check_operation_status (responses : Nat → PollResponse) :
    Nat → Nat → Option (String × Option String × List UserError)
  | _, 0 => none
  | i0, fuel + 1 =>
    let r := responses i0
    if r.status = "COMPLETE" then some (pollResult r)
    else check_operation_status responses (i0 + 1) fuel

/-- Whether one record's external processing (submission request, operation
poll, media attach…) raises, as seen by the per-record `try`/`except` in
`sync_products` (`main.py` lines 304–312). -/
inductive RecordOutcome where
  | success
  | failure (msg : String)
deriving DecidableEq, Repr

/-- Processing of one record inside the per-record `try`: `sync_products_to_shopify`
first maps the record (a mapping `KeyError` escapes into the handler), then
performs the external calls, abstracted by the `RecordOutcome` oracle. -/
def sync_record (ext : RecordOutcome) (p : SourceProduct) : Except String Unit :=
  match map_catalogiq_to_shopify p with
  | .error e => .error e.message
  | .ok _ =>
    match ext with
    | .success => .ok ()
    | .failure msg => .error msg

/-- The `for product in products:` loop of `sync_products` (`main.py` lines
304–312).  Each record is wrapped in `try ... except ... continue`, so every
record of the page is attempted in order no matter how earlier ones fared;
the caught result of the `i`-th record is recorded. -/
def run_page (outcomes : Nat → RecordOutcome) : Nat → List SourceProduct →
    List (Except String Unit)
  | _, [] => []
  | i, p :: rest => sync_record (outcomes i) p :: run_page outcomes (i + 1) rest

/-- The source-catalog fetch response: HTTP status code and the decoded
`results` list. -/
structure FetchResponse where
  status_code : Nat
  results : List SourceProduct
deriving Repr

/-- The three ways `sync_products` returns (`main.py` lines 292, 301, 316):
`fetchError` is the bare `return` after a non-200 fetch, `syncComplete` is
`"Sync Complete!"` on an empty page, `productComplete` is
`"Product Complete!"` after a processed page. -/
inductive SyncResult where
  | fetchError
  | syncComplete
  | productComplete
deriving DecidableEq, Repr

/-- The externally visible effects of one `sync_products` invocation:
the caught per-record results in page order, the offsets published via
`publish_offset`, and how many completion emails were sent. -/
structure SyncTrace where
  processed : List (Except String Unit)
  published : List Nat
  emails : Nat
deriving Repr

/-- The page orchestrator `sync_products` (`main.py` lines 268–316), with the
two external calls abstracted: `fetch` is the CatalogIQ response and
`outcomes i` tells whether the `i`-th record's external processing raises.
Non-200 fetch: bare return, nothing else happens.  Empty `results`: one
completion email, nothing else.  Otherwise every record is attempted and
`publish_offset(offset + 1)` runs once at the end. -/
def sync_products (offset : Nat) (fetch : FetchResponse)
    (outcomes : Nat → RecordOutcome) : SyncResult × SyncTrace :=
  if fetch.status_code ≠ 200 then
    (.fetchError, { processed := [], published := [], emails := 0 })
  else if fetch.results.isEmpty then
    (.syncComplete, { processed := [], published := [], emails := 1 })
  else
    (.productComplete,
      { processed := run_page outcomes 0 fetch.results
        published := [offset + 1]
        emails := 0 })

/-- Python `str(n)` for a non-negative integer: its decimal digit characters,
most significant first (`"0"` for `0`). -/
def str_nat (n : Nat) : List Char :=
  if n = 0 then ['0']
  else (Nat.digits 10 n).reverse.map (fun d => Char.ofNat (48 + d))

/-- The characters of `json.dumps` up to the offset value:
`{"offset": "` (with `json.dumps`'s default `": "` separator). -/
def json_open : List Char :=
  ['\x7b', '\"', 'o', 'f', 'f', 's', 'e', 't', '\"', ':', ' ', '\"']

/-- The characters of `json.dumps` after the offset value: `"}`. -/
def json_close : List Char := ['\"', '\x7d']

/-- The message `publish_offset(offset)` publishes (`main.py` lines 27–31):
the UTF-8 characters of `json.dumps({'offset': str(offset)})`. -/
def publish_offset_message (offset : Nat) : List Char :=
  json_open ++ str_nat offset ++ json_close

/-- Strip an expected leading run of characters, or fail. -/
def dropLeading : List Char → List Char → Option (List Char)
  | [], cs => some cs
  | _ :: _, [] => none
  | e :: es, c :: cs => if c = e then dropLeading es cs else none

/-- Strip an expected trailing run of characters, or fail. -/
def dropTrailing (expected cs : List Char) : Option (List Char) :=
  (dropLeading expected.reverse cs.reverse).map List.reverse

/-- The read `json.loads(message)['offset']`, modelled for messages of the single shape
this system publishes: strip the `{"offset": "` opening and the `"}` closing
and return the quoted field characters. -/
def parse_offset_field (cs : List Char) : Option (List Char) :=
  (dropLeading json_open cs).bind (dropTrailing json_close)

/-- Python `int(s)` on a non-empty all-digit string: fold the decimal digits;
anything else (empty string or a non-digit character) raises, i.e. `none`. -/
def int_of_chars_aux (acc : Nat) : List Char → Option Nat
  | [] => some acc
  | c :: cs =>
    if 48 ≤ c.toNat ∧ c.toNat ≤ 57 then int_of_chars_aux (acc * 10 + (c.toNat - 48)) cs
    else none

/-- Python `int(s)` (restricted to the unsigned decimal strings this system
produces): `int("")` raises, otherwise fold the digits. -/
def int_of_chars : List Char → Option Nat
  | [] => none
  | c :: cs => int_of_chars_aux 0 (c :: cs)

/-- What `process_product` (`main.py` lines 258–263) recovers from a delivered
message: `int(json.loads(data)['offset'])`, over the decoded UTF-8
characters. -/
def process_product_offset (cs : List Char) : Option Nat :=
  (parse_offset_field cs).bind int_of_chars

/-! ## Concrete inputs used to instantiate the theorems -/

/-- A variant at `Size = S`. -/
def vSizeS : SourceVariant :=
  { default_code := "SKU-S", attributes := [{ name := "Size", value := "S" }] }

/-- A variant at `Size = M`. -/
def vSizeM : SourceVariant :=
  { default_code := "SKU-M", attributes := [{ name := "Size", value := "M" }] }

/-- The spec's end-to-end scenario 1 product: two variants along one `Size`
axis, no description, no product attributes. -/
def pScen1 : SourceProduct :=
  { name := some "Widget", description_sale := none, main_image := none,
    images := [], attributes := some [], variants := some [vSizeS, vSizeM] }

/-- What the `main.py` mapper produces on `pScen1`. -/
def tScen1 : ShopifyProduct :=
  { title := "Widget", vendor := "Vendor Name", descriptionHtml := ""
    productOptions := [{ name := "Size", values := [{ name := "S" }, { name := "M" }] }]
    variants := [{ sku := "SKU-S", optionValues := [{ optionName := "Size", name := "S" }] },
                 { sku := "SKU-M", optionValues := [{ optionName := "Size", name := "M" }] }]
    metafields := [] }

/-- A variant that DOES specify the `Size` axis, but with the empty string as
its value — falsy in Python. -/
def vSizeEmpty : SourceVariant :=
  { default_code := "SKU-E", attributes := [{ name := "Size", value := "" }] }

/-- A product whose single variant assigns the empty string to its one axis. -/
def pEmptyVal : SourceProduct :=
  { name := some "EmptyVal", description_sale := none, main_image := none,
    images := [], attributes := some [], variants := some [vSizeEmpty] }

/-- What the `main.py` mapper produces on `pEmptyVal`: the axis and its empty
value survive in `productOptions`, but the variant's `optionValues` is empty. -/
def tEmptyVal : ShopifyProduct :=
  { title := "EmptyVal", vendor := "Vendor Name", descriptionHtml := ""
    productOptions := [{ name := "Size", values := [{ name := "" }] }]
    variants := [{ sku := "SKU-E", optionValues := [] }]
    metafields := [] }

/-- A product with `name` and `variants` present but no `attributes` key. -/
def pNoAttrs : SourceProduct :=
  { name := some "NoAttrs", description_sale := none, main_image := none,
    images := [], attributes := none, variants := some [] }

/-- The mapped form of `vSizeS`: one `optionValues` entry for `Size`. -/
def svSizeS : ShopifyVariant :=
  { sku := "SKU-S", optionValues := [{ optionName := "Size", name := "S" }] }

/-- A failed CatalogIQ fetch (HTTP 500). -/
def fetchServerError : FetchResponse := { status_code := 500, results := [] }

/-- A successful CatalogIQ fetch of an empty page. -/
def fetchEmptyPage : FetchResponse := { status_code := 200, results := [] }

/-- A successful fetch of a two-record page whose second record cannot be
mapped (missing `attributes`). -/
def fetchOnePage : FetchResponse := { status_code := 200, results := [pScen1, pNoAttrs] }

/-- External processing that never raises. -/
def allSuccess : Nat → RecordOutcome := fun _ => RecordOutcome.success

/-- A pending operation-status response. -/
def pollPending : PollResponse := { status := "PENDING", product := none, userErrors := [] }

/-- A completed operation-status response carrying a product id. -/
def pollDone : PollResponse :=
  { status := "COMPLETE", product := some { id := "gid-1", title := "Widget" }, userErrors := [] }

/-- A status-query stream that completes on the second query. -/
def pollAfterOne : Nat → PollResponse := fun i => if i = 0 then pollPending else pollDone

/-- A status-query stream that never completes. -/
def pollNever : Nat → PollResponse := fun _ => pollPending

/-- A variant at `Size = XL`, placed beyond the 99-variant cut. -/
def vSizeXL : SourceVariant :=
  { default_code := "SKU-XL", attributes := [{ name := "Size", value := "XL" }] }

/-- A 100-variant product: 99 copies of the `S` variant and then the `XL`
variant as variant number 100. -/
def pHundred : SourceProduct :=
  { name := some "Big", description_sale := none, main_image := none,
    images := [], attributes := some [],
    variants := some (List.replicate 99 vSizeS ++ [vSizeXL]) }

/-- What the `mian.py` mapper produces on `pHundred`: only 99 mapped variants,
yet the `Size` axis still carries the value `XL` taken from variant 100. -/
def tHundredMian : ShopifyProduct :=
  { title := "Big", vendor := "Vendor Name", descriptionHtml := ""
    productOptions := [{ name := "Size", values := [{ name := "S" }, { name := "XL" }] }]
    variants := List.replicate 99
      { sku := "SKU-S", optionValues := [{ optionName := "Size", name := "S" }] }
    metafields := [] }

/-- What the `main.py` mapper produces on `pHundred`: all 100 variants. -/
def tHundredMain : ShopifyProduct :=
  { title := "Big", vendor := "Vendor Name", descriptionHtml := ""
    productOptions := [{ name := "Size", values := [{ name := "S" }, { name := "XL" }] }]
    variants := List.replicate 99
        { sku := "SKU-S", optionValues := [{ optionName := "Size", name := "S" }] } ++
      [{ sku := "SKU-XL", optionValues := [{ optionName := "Size", name := "XL" }] }]
    metafields := [] }

/-! ## Helper lemmas -/

/-- Inversion of a successful `main.py` mapping: all three required keys were
present and the output is the assembled payload. -/
lemma map_ok_inv {p : SourceProduct} {t : ShopifyProduct}
    (ht : map_catalogiq_to_shopify p = .ok t) :
    ∃ title vs attrs, p.name = some title ∧ p.variants = some vs ∧
      p.attributes = some attrs ∧
      t = { title := title
            vendor := "Vendor Name"
            descriptionHtml := descriptionHtmlMain p.description_sale
            productOptions := mkProductOptions (collectOptionNames vs) vs
            variants := vs.map (mapVariant (collectOptionNames vs))
            metafields := mkMetafields attrs } := by
  rcases hv : p.variants with _ | vs <;>
    rcases hn : p.name with _ | nm <;>
      rcases ha : p.attributes with _ | attrs <;>
        simp [map_catalogiq_to_shopify, hv, hn, ha] at ht
  exact ⟨nm, vs, attrs, rfl, rfl, rfl, ht.symm⟩

/-- Inversion of a successful `mian.py` mapping. -/
lemma mian_ok_inv {p : SourceProduct} {t : ShopifyProduct}
    (ht : map_catalogiq_to_shopify_mian p = .ok t) :
    ∃ title vs attrs, p.name = some title ∧ p.variants = some vs ∧
      p.attributes = some attrs ∧
      t = { title := title
            vendor := "Vendor Name"
            descriptionHtml := p.description_sale.getD ""
            productOptions := mkProductOptions (collectOptionNames vs) vs
            variants := (vs.map (mapVariant (collectOptionNames vs))).take 99
            metafields := mkMetafields attrs } := by
  rcases hv : p.variants with _ | vs <;>
    rcases hn : p.name with _ | nm <;>
      rcases ha : p.attributes with _ | attrs <;>
        simp [map_catalogiq_to_shopify_mian, hv, hn, ha] at ht
  exact ⟨nm, vs, attrs, rfl, rfl, rfl, ht.symm⟩

/-- Membership in the collected option names is existence of a matching
variant attribute. -/
lemma mem_collectOptionNames {vs : List SourceVariant} {A : String} :
    A ∈ collectOptionNames vs ↔ ∃ v ∈ vs, ∃ a ∈ v.attributes, a.name = A := by
  rw [collectOptionNames, List.mem_dedup]
  constructor
  · intro h
    obtain ⟨l, hl, hAl⟩ := List.mem_flatten.mp h
    obtain ⟨v, hv, rfl⟩ := List.mem_map.mp hl
    obtain ⟨a, ha, rfl⟩ := List.mem_map.mp hAl
    exact ⟨v, hv, a, ha, rfl⟩
  · rintro ⟨v, hv, a, ha, rfl⟩
    exact List.mem_flatten.mpr
      ⟨_, List.mem_map.mpr ⟨v, hv, rfl⟩, List.mem_map.mpr ⟨a, ha, rfl⟩⟩

/-- Membership in the collected (pre-dedup) axis values. -/
lemma mem_collectAxisValues {vs : List SourceVariant} {optionName : String}
    {val : OptionValueName} :
    val ∈ collectAxisValues vs optionName ↔
      ∃ v ∈ vs, ∃ a ∈ v.attributes, a.name = optionName ∧ val = { name := a.value } := by
  rw [collectAxisValues]
  constructor
  · intro hmem
    obtain ⟨a, hmem2, rfl⟩ := List.mem_map.mp hmem
    obtain ⟨l, hl, hal⟩ := List.mem_flatten.mp hmem2
    obtain ⟨v, hv, rfl⟩ := List.mem_map.mp hl
    obtain ⟨ha, hname⟩ := List.mem_filter.mp hal
    exact ⟨v, hv, a, ha, by simpa using hname, rfl⟩
  · rintro ⟨v, hv, a, ha, hname, rfl⟩
    refine List.mem_map.mpr ⟨a, ?_, rfl⟩
    refine List.mem_flatten.mpr ⟨_, List.mem_map.mpr ⟨v, hv, rfl⟩, ?_⟩
    exact List.mem_filter.mpr ⟨ha, by simpa using hname⟩

/-- The single-field record `OptionValueName` is determined by its name. -/
lemma optionValueName_name_inj : Function.Injective OptionValueName.name := by
  rintro ⟨x⟩ ⟨y⟩ h
  simpa using h

/-- The `i`-th caught result of the page loop is the `i`-th record's own
result, whatever the other records did. -/
lemma run_page_getElem (o : Nat → RecordOutcome) :
    ∀ (l : List SourceProduct) (i0 i : Nat),
      (run_page o i0 l)[i]? = (l[i]?).map (sync_record (o (i0 + i))) := by
  intro l
  induction l with
  | nil => intro i0 i; simp [run_page]
  | cons p rest ih =>
    intro i0 i
    cases i with
    | zero => simp [run_page]
    | succ j =>
      have e : i0 + (j + 1) = (i0 + 1) + j := by omega
      simp [run_page, ih rest.length, ih, e]

/-- The page loop attempts every record of the page. -/
lemma run_page_length (o : Nat → RecordOutcome) :
    ∀ (l : List SourceProduct) (i0 : Nat), (run_page o i0 l).length = l.length := by
  intro l
  induction l with
  | nil => intro i0; simp [run_page]
  | cons p rest ih => intro i0; simp [run_page, ih]

/-- An iteration whose response is not `COMPLETE` just loops. -/
lemma check_operation_status_step (responses : Nat → PollResponse) (i0 fuel : Nat)
    (h : (responses i0).status ≠ "COMPLETE") :
    check_operation_status responses i0 (fuel + 1) =
      check_operation_status responses (i0 + 1) fuel := by
  simp [check_operation_status, h]

/-- If no response is ever `COMPLETE`, no amount of unrolling returns. -/
lemma check_operation_status_none (responses : Nat → PollResponse)
    (h : ∀ j, (responses j).status ≠ "COMPLETE") :
    ∀ fuel i0, check_operation_status responses i0 fuel = none := by
  intro fuel
  induction fuel with
  | zero => intro i0; rfl
  | succ f ih => intro i0; rw [check_operation_status_step responses i0 f (h i0)]; exact ih _

/-- If the `k`-th response (counted from `i0`) is the first `COMPLETE` one,
any sufficiently deep unrolling returns its result. -/
lemma check_operation_status_first (responses : Nat → PollResponse) :
    ∀ (k i0 fuel : Nat),
      (∀ j, j < k → (responses (i0 + j)).status ≠ "COMPLETE") →
      (responses (i0 + k)).status = "COMPLETE" → k < fuel →
      check_operation_status responses i0 fuel = some (pollResult (responses (i0 + k))) := by
  intro k
  induction k with
  | zero =>
    intro i0 fuel _ hc hfuel
    obtain ⟨f, rfl⟩ := Nat.exists_eq_succ_of_ne_zero (Nat.pos_iff_ne_zero.mp hfuel)
    simp only [Nat.add_zero] at hc
    simp [check_operation_status, hc]
  | succ k ih =>
    intro i0 fuel hbefore hc hfuel
    obtain ⟨f, rfl⟩ := Nat.exists_eq_succ_of_ne_zero (Nat.pos_iff_ne_zero.mp (Nat.lt_of_le_of_lt (Nat.zero_le _) hfuel))
    have h0 : (responses i0).status ≠ "COMPLETE" := by
      have := hbefore 0 (Nat.succ_pos k)
      simpa using this
    rw [check_operation_status_step responses i0 f h0]
    have e : i0 + (k + 1) = (i0 + 1) + k := by omega
    rw [e] at hc ⊢
    refine ih (i0 + 1) f ?_ hc (by omega)
    intro j hj
    have e2 : (i0 + 1) + j = i0 + (j + 1) := by omega
    rw [e2]
    exact hbefore (j + 1) (by omega)

/-! ## Claim theorems -/

/-- C4: for every source product whose `description_sale` is absent or falsy
(for strings: the empty string), the mapped output's `descriptionHtml` is
`""`, in both entry points' mappers. -/
theorem C4_descriptionHtml_empty (p : SourceProduct)
    (h : p.description_sale = none ∨ p.description_sale = some "") :
    (∀ t, map_catalogiq_to_shopify p = .ok t → t.descriptionHtml = "") ∧
    (∀ t, map_catalogiq_to_shopify_mian p = .ok t → t.descriptionHtml = "") := by
  constructor
  · intro t ht
    obtain ⟨title, vs, attrs, _, _, _, rfl⟩ := map_ok_inv ht
    rcases h with h | h <;> simp [descriptionHtmlMain, h]
  · intro t ht
    obtain ⟨title, vs, attrs, _, _, _, rfl⟩ := mian_ok_inv ht
    rcases h with h | h <;> simp [h]

/-- Witness for C4 at `pScen1` (absent description). -/
theorem C4_descriptionHtml_empty_witness :
    map_catalogiq_to_shopify pScen1 = .ok tScen1 ∧ tScen1.descriptionHtml = "" :=
  ⟨rfl, (C4_descriptionHtml_empty pScen1 (Or.inl rfl)).1 tScen1 rfl⟩

/-- C5: on a non-200 CatalogIQ fetch, `sync_products` stops at once: no record
is processed, no offset is published, no completion email is sent. -/
theorem C5_fetch_failure_stops (offset : Nat) (fetch : FetchResponse)
    (outcomes : Nat → RecordOutcome) (h : fetch.status_code ≠ 200) :
    sync_products offset fetch outcomes =
      (.fetchError, { processed := [], published := [], emails := 0 }) := by
  simp [sync_products, h]

/-- Witness for C5 at an HTTP-500 fetch. -/
theorem C5_fetch_failure_stops_witness :
    sync_products 7 fetchServerError allSuccess =
      (.fetchError, { processed := [], published := [], emails := 0 }) :=
  C5_fetch_failure_stops 7 fetchServerError allSuccess (by decide)

/-- C6: on a 200 fetch with an empty `results` page, `sync_products` sends the
completion email exactly once, publishes no offset and processes no record. -/
theorem C6_empty_page_completes (offset : Nat) (fetch : FetchResponse)
    (outcomes : Nat → RecordOutcome) (h200 : fetch.status_code = 200)
    (hempty : fetch.results = []) :
    sync_products offset fetch outcomes =
      (.syncComplete, { processed := [], published := [], emails := 1 }) := by
  simp [sync_products, h200, hempty]

/-- Witness for C6 at an empty 200 page. -/
theorem C6_empty_page_completes_witness :
    sync_products 7 fetchEmptyPage allSuccess =
      (.syncComplete, { processed := [], published := [], emails := 1 }) :=
  C6_empty_page_completes 7 fetchEmptyPage allSuccess (by decide) (by decide)

/-- C7: on a non-empty 200 page every record is attempted — the `i`-th caught
result is that record's own result, whatever the other records did — and
exactly one offset, `offset + 1`, is published at the end. -/
theorem C7_per_record_isolation (offset : Nat) (fetch : FetchResponse)
    (outcomes : Nat → RecordOutcome) (h200 : fetch.status_code = 200)
    (hne : fetch.results ≠ []) :
    (sync_products offset fetch outcomes).1 = .productComplete ∧
    (sync_products offset fetch outcomes).2.published = [offset + 1] ∧
    (sync_products offset fetch outcomes).2.processed.length = fetch.results.length ∧
    ∀ i, (sync_products offset fetch outcomes).2.processed[i]? =
      (fetch.results[i]?).map (sync_record (outcomes i)) := by
  have hnotempty : fetch.results.isEmpty = false := by
    simpa [List.isEmpty_iff] using hne
  refine ⟨by simp [sync_products, h200, hnotempty], by simp [sync_products, h200, hnotempty],
    by simp [sync_products, h200, hnotempty, run_page_length], fun i => ?_⟩
  simp only [sync_products, h200, hnotempty]
  simpa using run_page_getElem outcomes fetch.results 0 i

/-- Witness for C7: a two-record page whose second record fails to map — its
failure is recorded, the first record still succeeded, the offset advanced. -/
theorem C7_per_record_isolation_witness :
    (sync_products 3 fetchOnePage allSuccess).2.published = [4] ∧
    (sync_products 3 fetchOnePage allSuccess).2.processed.length = 2 ∧
    (sync_products 3 fetchOnePage allSuccess).2.processed[0]? = some (.ok ()) ∧
    (sync_products 3 fetchOnePage allSuccess).2.processed[1]? =
      some (.error "KeyError: attributes") := by
  have h := C7_per_record_isolation 3 fetchOnePage allSuccess (by decide) (by decide)
  refine ⟨h.2.1, by simpa using h.2.2.1, ?_, ?_⟩
  · rw [h.2.2.2 0]; rfl
  · rw [h.2.2.2 1]; rfl

/-- The collected option names are duplicate-free (they come from a set). -/
lemma collectOptionNames_nodup (vs : List SourceVariant) :
    (collectOptionNames vs).Nodup := List.nodup_dedup _

/-- The axis names of the assembled `productOptions` are the collected
option names. -/
lemma mkProductOptions_names (optionNames : List String) (vs : List SourceVariant) :
    (mkProductOptions optionNames vs).map ProductOption.name = optionNames := by
  induction optionNames with
  | nil => rfl
  | cons n ns ih => simpa [mkProductOptions] using (by simpa [mkProductOptions] using ih)

/-- C1: the mapped `productOptions` has exactly one axis per distinct
attribute name across the variants, and each axis's values are duplicate-free
and all actually assigned by some variant. -/
theorem C1_option_axes (p : SourceProduct) (vs : List SourceVariant) (t : ShopifyProduct)
    (hvs : p.variants = some vs) (_hne : vs ≠ [])
    (ht : map_catalogiq_to_shopify p = .ok t) :
    (t.productOptions.map ProductOption.name).Nodup ∧
    (∀ A, A ∈ t.productOptions.map ProductOption.name ↔
      ∃ v ∈ vs, ∃ a ∈ v.attributes, a.name = A) ∧
    ∀ ax ∈ t.productOptions,
      (ax.values.map OptionValueName.name).Nodup ∧
      ∀ val ∈ ax.values, ∃ v ∈ vs, ∃ a ∈ v.attributes,
        a.name = ax.name ∧ a.value = val.name := by
  obtain ⟨title, vs', attrs, hn', hv', ha', rfl⟩ := map_ok_inv ht
  rw [hvs] at hv'
  injection hv' with e
  subst e
  refine ⟨?_, ?_, ?_⟩
  · change ((mkProductOptions (collectOptionNames vs) vs).map ProductOption.name).Nodup
    rw [mkProductOptions_names]
    exact collectOptionNames_nodup vs
  · intro A
    change A ∈ (mkProductOptions (collectOptionNames vs) vs).map ProductOption.name ↔ _
    rw [mkProductOptions_names]
    exact mem_collectOptionNames
  · intro ax hax
    change ax ∈ mkProductOptions (collectOptionNames vs) vs at hax
    obtain ⟨n, hn, rfl⟩ := List.mem_map.mp hax
    constructor
    · exact List.Nodup.map optionValueName_name_inj (List.nodup_dedup _)
    · intro val hval
      obtain ⟨v, hv, a, ha, hname, rfl⟩ :=
        mem_collectAxisValues.mp (List.mem_dedup.mp hval)
      exact ⟨v, hv, a, ha, hname, rfl⟩

/-- Witness for C1 at the spec's scenario-1 product. -/
theorem C1_option_axes_witness :
    map_catalogiq_to_shopify pScen1 = .ok tScen1 ∧
    ("Size" ∈ tScen1.productOptions.map ProductOption.name ↔
      ∃ v ∈ [vSizeS, vSizeM], ∃ a ∈ v.attributes, a.name = "Size") :=
  ⟨rfl, (C1_option_axes pScen1 [vSizeS, vSizeM] tScen1 rfl (by decide) rfl).2.1 "Size"⟩

/-- C2 as stated is false: `pEmptyVal`'s only variant DOES have an attribute
named `Size`, yet its mapped `optionValues` has no entry for `Size`, because
the attribute's value `""` is falsy and line 53's `if attribute_value:`
drops it. -/
theorem C2_claim_counterexample :
    map_catalogiq_to_shopify pEmptyVal = .ok tEmptyVal ∧
    (∃ a ∈ vSizeEmpty.attributes, a.name = "Size") ∧
    ∀ sv ∈ tEmptyVal.variants, ∀ ov ∈ sv.optionValues, ov.optionName ≠ "Size" := by
  refine ⟨rfl, ?_, ?_⟩ <;> decide

/-- C2 (amended): the mapped variant at position `i` has an `optionValues`
entry for axis `A` iff the first attribute of the source variant named `A`
exists and has a non-empty (truthy) value. -/
theorem C2_optionValues_sparse (p : SourceProduct) (vs : List SourceVariant)
    (t : ShopifyProduct) (hvs : p.variants = some vs)
    (ht : map_catalogiq_to_shopify p = .ok t) :
    ∀ (i : Nat) (v : SourceVariant), vs[i]? = some v →
      ∃ sv : ShopifyVariant, t.variants[i]? = some sv ∧
        ∀ A : String, (∃ ov ∈ sv.optionValues, ov.optionName = A) ↔
          ∃ val, findAttrValue v.attributes A = some val ∧ val ≠ "" := by
  obtain ⟨title, vs', attrs, hn', hv', ha', rfl⟩ := map_ok_inv ht
  rw [hvs] at hv'
  injection hv' with e
  subst e
  intro i v hiv
  refine ⟨mapVariant (collectOptionNames vs) v, ?_, fun A => ⟨?_, ?_⟩⟩
  · change (vs.map (mapVariant (collectOptionNames vs)))[i]? = _
    rw [List.getElem?_map, hiv]
    rfl
  · rintro ⟨ov, hov, rfl⟩
    obtain ⟨n, hn, hfn⟩ := List.mem_filterMap.mp hov
    rcases hval : findAttrValue v.attributes n with _ | val
    · rw [hval] at hfn
      simp at hfn
    · rw [hval] at hfn
      by_cases hemp : val = ""
      · simp [hemp] at hfn
      · simp [hemp] at hfn
        obtain rfl : ov = { optionName := n, name := val } := hfn.symm
        exact ⟨val, hval, hemp⟩
  · rintro ⟨val, hval, hemp⟩
    rcases hf : v.attributes.find? (fun a => a.name = A) with _ | a
    · rw [findAttrValue, hf] at hval
      simp at hval
    · rw [findAttrValue, hf] at hval
      simp at hval
      have haA : a.name = A := by simpa using List.find?_some hf
      have hamem : a ∈ v.attributes := List.mem_of_find?_eq_some hf
      have hvmem : v ∈ vs := by
        obtain ⟨hlt, rfl⟩ := List.getElem?_eq_some_iff.mp hiv
        exact List.getElem_mem hlt
      have hA : A ∈ collectOptionNames vs :=
        mem_collectOptionNames.mpr ⟨v, hvmem, a, hamem, haA⟩
      have hfv : findAttrValue v.attributes A = some val := by
        rw [findAttrValue, hf]
        simp [hval]
      refine ⟨{ optionName := A, name := val }, List.mem_filterMap.mpr ⟨A, hA, ?_⟩, rfl⟩
      rw [hfv]
      simp [hemp]

/-- Witness for C2 (amended) at `pScen1`, variant 0, axis `Size`. -/
theorem C2_optionValues_sparse_witness :
    map_catalogiq_to_shopify pScen1 = .ok tScen1 ∧
    (∃ ov ∈ svSizeS.optionValues, ov.optionName = "Size") := by
  refine ⟨rfl, ?_⟩
  obtain ⟨sv, hsv, hiff⟩ :=
    C2_optionValues_sparse pScen1 [vSizeS, vSizeM] tScen1 rfl rfl 0 vSizeS rfl
  have he : some svSizeS = some sv := by rw [← hsv]; rfl
  injection he with he
  rw [he]
  exact (hiff "Size").mpr ⟨"S", rfl, by decide⟩

/-- C3 as stated is false: `pNoAttrs` has both `name` and `variants` but the
mapper still fails, raising `KeyError: attributes` from line 90's
`ciq_product['attributes']`. -/
theorem C3_claim_counterexample :
    pNoAttrs.name.isSome = true ∧ pNoAttrs.variants.isSome = true ∧
    map_catalogiq_to_shopify pNoAttrs = .error (.missingField "attributes") :=
  ⟨rfl, rfl, rfl⟩

/-- C3 (amended): the mapper is pure and fails exactly when one of the three
keys it indexes — `name`, `variants`, `attributes` — is absent. -/
theorem C3_success_iff_required_present (p : SourceProduct) :
    (∃ t, map_catalogiq_to_shopify p = .ok t) ↔
      (p.name.isSome = true ∧ p.variants.isSome = true ∧ p.attributes.isSome = true) := by
  rcases hv : p.variants with _ | vs <;> rcases hn : p.name with _ | nm <;>
    rcases ha : p.attributes with _ | attrs <;>
      simp [map_catalogiq_to_shopify, hv, hn, ha]

/-- Witness for C3 (amended): `pScen1` has all three keys, so mapping
succeeds on it. -/
theorem C3_success_iff_required_present_witness :
    pScen1.name.isSome = true ∧ pScen1.variants.isSome = true ∧
      pScen1.attributes.isSome = true :=
  (C3_success_iff_required_present pScen1).mp ⟨tScen1, rfl⟩

/-- C8: the poll loop returns exactly at the first `COMPLETE` response —
yielding that response's status, `productId` (`none` when `product` is null)
and `userErrors` — and if no response is ever `COMPLETE` it never returns,
whatever iteration bound is granted. -/
theorem C8_poll_terminates_iff_complete :
    (∀ (responses : Nat → PollResponse) (k : Nat),
      (∀ j, j < k → (responses j).status ≠ "COMPLETE") →
      (responses k).status = "COMPLETE" →
      ∀ fuel, k < fuel →
        check_operation_status responses 0 fuel = some (pollResult (responses k))) ∧
    (∀ responses : Nat → PollResponse,
      (∀ j, (responses j).status ≠ "COMPLETE") →
      ∀ fuel, check_operation_status responses 0 fuel = none) := by
  constructor
  · intro responses k hbefore hc fuel hfuel
    have h0 : ∀ j, j < k → (responses (0 + j)).status ≠ "COMPLETE" := by
      intro j hj
      simpa using hbefore j hj
    have hc0 : (responses (0 + k)).status = "COMPLETE" := by simpa using hc
    have h := check_operation_status_first responses k 0 fuel h0 hc0 hfuel
    simpa using h
  · intro responses h fuel
    exact check_operation_status_none responses h fuel 0

/-- Witness for C8: a stream completing on the second query returns its
result with any fuel above 1; the never-completing stream returns nothing. -/
theorem C8_poll_terminates_iff_complete_witness :
    check_operation_status pollAfterOne 0 3 = some ("COMPLETE", some "gid-1", []) ∧
    check_operation_status pollNever 0 5 = none := by
  constructor
  · have h := C8_poll_terminates_iff_complete.1 pollAfterOne 1
      (by intro j hj; interval_cases j; decide) (by decide) 3 (by omega)
    exact h
  · exact C8_poll_terminates_iff_complete.2 pollNever
      (fun j => by simp [pollNever, pollPending]) 5

set_option maxRecDepth 40000 in
/-- C9 as stated is false in its parenthetical: on the 100-variant `pHundred`,
the `mian.py` mapper emits only the first 99 variants, yet the `Size` axis
still carries the value `XL`, which only variant number 100 assigns — the
per-axis value aggregation (line 70) is NOT restricted to the first 99
variants. -/
theorem C9_claim_counterexample :
    map_catalogiq_to_shopify_mian pHundred = .ok tHundredMian ∧
    tHundredMian.variants.length = 99 ∧
    (∃ ax ∈ tHundredMian.productOptions, ax.name = "Size" ∧
      ∃ val ∈ ax.values, val.name = "XL") ∧
    (∀ v ∈ List.replicate 99 vSizeS, ∀ a ∈ v.attributes, a.value ≠ "XL") ∧
    ∀ sv ∈ tHundredMian.variants, ∀ ov ∈ sv.optionValues, ov.name ≠ "XL" := by
  refine ⟨rfl, ?_, ?_, ?_, ?_⟩ <;> decide

/-- C9 (amended): whenever both mappers succeed on the same product, the
`mian.py` output's variants are the `main.py` output's variants truncated to
the first 99, while the two `productOptions` (aggregated from ALL variants in
both files) coincide; the `main.py` mapper maps every variant. -/
theorem C9_truncation_divergence (p : SourceProduct) (t t' : ShopifyProduct)
    (ht : map_catalogiq_to_shopify p = .ok t)
    (ht' : map_catalogiq_to_shopify_mian p = .ok t') :
    t'.variants = t.variants.take 99 ∧
    t'.productOptions = t.productOptions ∧
    ∀ vs, p.variants = some vs → t.variants.length = vs.length := by
  obtain ⟨ti, vs, at1, hn, hv, ha, rfl⟩ := map_ok_inv ht
  obtain ⟨ti', vs', at2, hn', hv', ha', rfl⟩ := mian_ok_inv ht'
  rw [hv] at hv'
  injection hv' with e
  subst e
  refine ⟨rfl, rfl, ?_⟩
  intro vs0 hvs0
  rw [hv] at hvs0
  injection hvs0 with e0
  subst e0
  change (vs.map (mapVariant (collectOptionNames vs))).length = vs.length
  simp

set_option maxRecDepth 40000 in
/-- Witness for C9 (amended) at `pHundred`. -/
theorem C9_truncation_divergence_witness :
    tHundredMian.variants = tHundredMain.variants.take 99 :=
  (C9_truncation_divergence pHundred tHundredMain tHundredMian rfl rfl).1

/-- Stripping a run we just prepended gives back the rest. -/
lemma dropLeading_append : ∀ (e cs : List Char), dropLeading e (e ++ cs) = some cs := by
  intro e
  induction e with
  | nil => intro cs; rfl
  | cons c e ih => intro cs; simp [dropLeading, ih]

/-- Stripping a run we just appended gives back the front. -/
lemma dropTrailing_append (e cs : List Char) : dropTrailing e (cs ++ e) = some cs := by
  simp [dropTrailing, List.reverse_append, dropLeading_append]

/-- Parsing the published envelope recovers the quoted field characters. -/
lemma parse_offset_field_message (mid : List Char) :
    parse_offset_field (json_open ++ (mid ++ json_close)) = some mid := by
  simp [parse_offset_field, dropLeading_append, dropTrailing_append]

/-- A decimal digit character's code point. -/
lemma digitChar_toNat (d : Nat) (hd : d < 10) : (Char.ofNat (48 + d)).toNat = 48 + d := by
  interval_cases d <;> decide

/-- Folding `int` over digit characters is folding over the digits. -/
lemma int_of_chars_aux_digits :
    ∀ (L : List Nat) (acc : Nat), (∀ d ∈ L, d < 10) →
      int_of_chars_aux acc (L.map (fun d => Char.ofNat (48 + d))) =
        some (L.foldl (fun a d => a * 10 + d) acc) := by
  intro L
  induction L with
  | nil => intro acc _; rfl
  | cons d L ih =>
    intro acc h
    have hd : d < 10 := h d (List.mem_cons_self d L)
    have ht := digitChar_toNat d hd
    have h1 : 48 ≤ (Char.ofNat (48 + d)).toNat := by omega
    have h2 : (Char.ofNat (48 + d)).toNat ≤ 57 := by omega
    have h3 : (Char.ofNat (48 + d)).toNat - 48 = d := by omega
    simp only [List.map_cons, int_of_chars_aux, List.foldl_cons]
    rw [if_pos ⟨h1, h2⟩, h3]
    exact ih (acc * 10 + d) (fun x hx => h x (List.mem_cons_of_mem d hx))

/-- Folding most-significant-first digits computes the number they denote. -/
lemma foldl_ofDigits :
    ∀ (L : List Nat) (acc : Nat),
      (L.reverse).foldl (fun a d => a * 10 + d) acc =
        acc * 10 ^ L.length + Nat.ofDigits 10 L := by
  intro L
  induction L with
  | nil => intro acc; simp [Nat.ofDigits_nil]
  | cons d L ih =>
    intro acc
    rw [List.reverse_cons, List.foldl_append]
    simp only [List.foldl_cons, List.foldl_nil]
    rw [ih acc, Nat.ofDigits_cons, List.length_cons, pow_succ]
    ring

/-- Parsing back a printed number: `int(str(n)) == n` for the decimal strings
this system produces. -/
lemma int_of_chars_str_nat (n : Nat) : int_of_chars (str_nat n) = some n := by
  by_cases h : n = 0
  · subst h
    decide
  · rw [str_nat, if_neg h]
    have hne : Nat.digits 10 n ≠ [] := Nat.digits_ne_nil_iff_ne_zero.mpr h
    have hlt : ∀ d ∈ (Nat.digits 10 n).reverse, d < 10 := by
      intro d hd
      exact Nat.digits_lt_base (by norm_num) (List.mem_reverse.mp hd)
    rcases hL : (Nat.digits 10 n).reverse with _ | ⟨c, cs⟩
    · exact absurd (by simpa using hL) hne
    · show int_of_chars_aux 0
        ((c :: cs).map (fun d => Char.ofNat (48 + d))) = some n
      rw [← hL, int_of_chars_aux_digits _ 0 hlt, foldl_ofDigits]
      simp [Nat.ofDigits_digits]

/-- C10: the offset round-trips — the message `publish_offset(n)` publishes,
decoded the way `process_product` decodes its Pub/Sub payload, parses back to
exactly `n`, so each published cursor drives the next invocation at that
offset. -/
theorem C10_offset_roundtrip (n : Nat) :
    process_product_offset (publish_offset_message n) = some n := by
  rw [process_product_offset, publish_offset_message, List.append_assoc,
    parse_offset_field_message]
  simpa using int_of_chars_str_nat n

/-- Witness for C10 at the concrete offset 42. -/
theorem C10_offset_roundtrip_witness :
    process_product_offset (publish_offset_message 42) = some 42 :=
  C10_offset_roundtrip 42
